import Mathlib

/-!
Verification of the `contract_metadata` module of `cargo-contract`
(`src/metadata/lib.rs`): the metadata schema, its builder, and its
canonical JSON serialization.

The Rust code serializes values with serde into `serde_json::Value`.
We embed the serialized form as an inductive `Json` type in which
objects are *ordered* association lists, so that key order — which the
spec fixes — is observable.  External crates (`semver::Version`,
`url::Url`) are modelled by their `Display` strings, which is exactly
what the serialized output of this module depends on.
-/

set_option autoImplicit false

namespace ContractMeta

/-- JSON values as produced by serialization.  Objects keep their
entries in emission order so that the deterministic key order of the
serialized document can be stated. -/
inductive Json where
  | null : Json
  | str : String → Json
  | arr : List Json → Json
  | obj : List (String × Json) → Json

/-- The top-level keys of a serialized object, in emission order. -/
def Json.keys : Json → List String
  | .obj kvs => kvs.map Prod.fst
  | _ => []

/-- The entries of a serialized object (empty for non-objects). -/
def Json.entries : Json → List (String × Json)
  | .obj kvs => kvs
  | _ => []

/-- First value bound to key `k` in an ordered entry list. -/
def lookupEntry (k : String) : List (String × Json) → Option Json
  | [] => none
  | (k2, v) :: rest => if k2 = k then some v else lookupEntry k rest

/-- First value bound to key `k` at the top level of a serialized object. -/
def Json.lookupKey (j : Json) (k : String) : Option Json :=
  lookupEntry k (Json.entries j)

/-- The sixteen lowercase hexadecimal digit characters, in value order. -/
def lowerHexChars : List Char := "0123456789abcdef".toList

/-- The lowercase hex digit for a value `n < 16` (Rust `{:x}` on one nibble). -/
def hexChar (n : Nat) : Char := lowerHexChars.getD n '?'

/-- The two lowercase hex characters Rust `write!("{:02x}", byte)` emits
for one byte `b < 256`. -/
def byteToHexChars (b : Nat) : List Char := [hexChar (b / 16), hexChar (b % 16)]

/-- Embeds `serialize_as_byte_str` (src/metadata/lib.rs:449-463): an empty
byte slice serializes as the empty string with no `0x`; a non-empty one as
`0x` followed by `{:02x}` per byte. -/
def serialize_as_byte_str (bytes : List Nat) : Json :=
  if bytes.isEmpty then Json.str ""
  else Json.str ("0x" ++ String.mk ((bytes.map byteToHexChars).flatten))

/-- `semver::Version` (external crate), modelled by its `Display` string;
the module serializes versions via that string and never inspects the
components. -/
structure Version where
  display : String

/-- `url::Url` (external crate), modelled by its `Display` string, which is
also its serde serialization. -/
structure Url where
  display : String

/-- `Language` enum (src/metadata/lib.rs:204-208). -/
inductive Language where
  | Ink : Language
  | Solidity : Language
  | AssemblyScript : Language

/-- `Display for Language` (src/metadata/lib.rs:210-218): the fixed label
of each variant. -/
def Language.display : Language → String
  | .Ink => "ink!"
  | .Solidity => "Solidity"
  | .AssemblyScript => "AssemblyScript"

/-- `Compiler` enum (src/metadata/lib.rs:250-253). -/
inductive Compiler where
  | RustC : Compiler
  | Solang : Compiler

/-- `Display for Compiler` (src/metadata/lib.rs:255-262). -/
def Compiler.display : Compiler → String
  | .RustC => "rustc"
  | .Solang => "solang"

/-- `SourceLanguage` (src/metadata/lib.rs:175-178). -/
structure SourceLanguage where
  language : Language
  version : Version

/-- `Display for SourceLanguage`: `"{} {}"` of language and version. -/
def SourceLanguage.display (sl : SourceLanguage) : String :=
  sl.language.display ++ " " ++ sl.version.display

/-- `Serialize for SourceLanguage`: `serialize_str(self.to_string())`. -/
def SourceLanguage.serialize (sl : SourceLanguage) : Json :=
  Json.str sl.display

/-- `SourceCompiler` (src/metadata/lib.rs:222-225). -/
structure SourceCompiler where
  compiler : Compiler
  version : Version

/-- `Display for SourceCompiler`: `"{} {}"` of compiler and version. -/
def SourceCompiler.display (sc : SourceCompiler) : String :=
  sc.compiler.display ++ " " ++ sc.version.display

/-- `Serialize for SourceCompiler`: `serialize_str(self.to_string())`. -/
def SourceCompiler.serialize (sc : SourceCompiler) : Json :=
  Json.str sc.display

/-- `CodeHash(pub [u8; 32])` (src/metadata/lib.rs:104): its byte array has
length 32 by type; the length fact is carried as a field. -/
structure CodeHash where
  hash : List Nat
  hash_len : hash.length = 32

/-- `Serialize for CodeHash` (src/metadata/lib.rs:106-113): defers to
`serialize_as_byte_str` on the 32 bytes. -/
def CodeHash.serialize (ch : CodeHash) : Json :=
  serialize_as_byte_str ch.hash

/-- The derived `Debug` form of `CodeHash` (`#[derive(Debug)]` on a tuple
struct over a byte array): `CodeHash([b0, b1, ...])` with decimal bytes.
This is the only human-readable rendering the source gives `CodeHash`;
there is no `Display` impl for it in src/metadata/lib.rs. -/
def CodeHash.debugFmt (ch : CodeHash) : String :=
  "CodeHash([" ++ String.intercalate ", " (ch.hash.map toString) ++ "])"

/-- `SourceWasm` (src/metadata/lib.rs:143-145): the compiled Wasm bytes. -/
structure SourceWasm where
  wasm : List Nat

/-- `Serialize for SourceWasm` (src/metadata/lib.rs:154-161): defers to
`serialize_as_byte_str`. -/
def SourceWasm.serialize (w : SourceWasm) : Json :=
  serialize_as_byte_str w.wasm

/-- `Display for SourceWasm` (src/metadata/lib.rs:163-171): writes `0x`
unconditionally, then `{:02x}` per byte — no empty-slice special case. -/
def SourceWasm.display (w : SourceWasm) : String :=
  "0x" ++ String.mk ((w.wasm.map byteToHexChars).flatten)

/-- `Source` (src/metadata/lib.rs:116-122). -/
structure Source where
  hash : CodeHash
  language : SourceLanguage
  compiler : SourceCompiler
  wasm : Option SourceWasm

/-- `Source::new` (src/metadata/lib.rs:126-138). -/
def Source.new (wasm : Option SourceWasm) (hash : CodeHash)
    (language : SourceLanguage) (compiler : SourceCompiler) : Source :=
  { hash, language, compiler, wasm }

/-- Derived `Serialize for Source`: fields in declaration order, with the
`wasm` entry skipped when `None` (`skip_serializing_if = "Option::is_none"`). -/
def Source.serializeJson (s : Source) : Json :=
  Json.obj
    ([("hash", s.hash.serialize),
      ("language", s.language.serialize),
      ("compiler", s.compiler.serialize)]
      ++ (match s.wasm with
          | none => []
          | some w => [("wasm", w.serialize)]))

/-- `Contract` (src/metadata/lib.rs:266-280). -/
structure Contract where
  name : String
  version : Version
  authors : List String
  description : Option String
  documentation : Option Url
  repository : Option Url
  homepage : Option Url
  license : Option String

/-- An optional serde field under `skip_serializing_if "Option::is_none"`:
one entry when present, no entry (rather than a `null`) when absent. -/
def optField (k : String) : Option Json → List (String × Json)
  | none => []
  | some j => [(k, j)]

/-- Derived `Serialize for Contract`: required fields first, then each
optional field in declaration order, omitted entirely when unset. -/
def Contract.serializeJson (c : Contract) : Json :=
  Json.obj
    ([("name", Json.str c.name),
      ("version", Json.str c.version.display),
      ("authors", Json.arr (c.authors.map Json.str))]
      ++ optField "description" (c.description.map Json.str)
      ++ optField "documentation" (c.documentation.map (fun u => Json.str u.display))
      ++ optField "repository" (c.repository.map (fun u => Json.str u.display))
      ++ optField "homepage" (c.homepage.map (fun u => Json.str u.display))
      ++ optField "license" (c.license.map Json.str))

/-- `User` (src/metadata/lib.rs:290-293): arbitrary user JSON. -/
structure User where
  json : List (String × Json)

/-- `User::new` (src/metadata/lib.rs:296-299). -/
def User.new (json : List (String × Json)) : User := { json }

/-- Derived `Serialize for User` with `#[serde(flatten)]` on its single
map field: the user's keys become the keys of the `User` object itself. -/
def User.serializeJson (u : User) : Json :=
  Json.obj u.json

/-- `METADATA_VERSION` constant (src/metadata/lib.rs:61). -/
def METADATA_VERSION : String := "0.1.0"

/-- `ContractMetadata` (src/metadata/lib.rs:64-75). -/
structure ContractMetadata where
  metadata_version : Version
  source : Source
  contract : Contract
  user : Option User
  abi : List (String × Json)

/-- `ContractMetadata::new` (src/metadata/lib.rs:79-95): parses the
constant `METADATA_VERSION`; `semver` parses `"0.1.0"` successfully and
its `Display` round-trips the canonical string. -/
def ContractMetadata.new (source : Source) (contract : Contract)
    (user : Option User) (abi : List (String × Json)) : ContractMetadata :=
  { metadata_version := { display := METADATA_VERSION }, source, contract, user, abi }

/-- `ContractMetadata::remove_source_wasm_attribute`
(src/metadata/lib.rs:97-99): sets `self.source.wasm = None`. -/
def ContractMetadata.remove_source_wasm_attribute (m : ContractMetadata) : ContractMetadata :=
  { m with source := { m.source with wasm := none } }

/-- Derived `Serialize for ContractMetadata`: `metadata_version` renamed to
`metadataVersion`, then `source`, `contract`, `user` (skipped when `None`),
then the `#[serde(flatten)]` ABI map spliced at the position of its field —
last. -/
def ContractMetadata.serializeJson (m : ContractMetadata) : Json :=
  Json.obj
    ([("metadataVersion", Json.str m.metadata_version.display),
      ("source", m.source.serializeJson),
      ("contract", m.contract.serializeJson)]
      ++ (match m.user with
          | none => []
          | some u => [("user", u.serializeJson)])
      ++ m.abi)

/-- `ContractBuilder` (src/metadata/lib.rs:304-313): `#[derive(Default)]`,
every field starts as `None`. -/
structure ContractBuilder where
  name : Option String := none
  version : Option Version := none
  authors : Option (List String) := none
  description : Option String := none
  documentation : Option Url := none
  repository : Option Url := none
  homepage : Option Url := none
  license : Option String := none

/-- `Contract::builder` (src/metadata/lib.rs:283-285): the default builder. -/
def Contract.builder : ContractBuilder := {}

/-- `ContractBuilder::name` (src/metadata/lib.rs:317-326).  The Rust
setter panics when the field was already set; panics are modelled as
`Except.error` carrying the panic message. -/
def ContractBuilder.setName (b : ContractBuilder) (name : String) :
    Except String ContractBuilder :=
  if b.name.isSome then .error "name has already been set"
  else .ok { b with name := some name }

/-- `ContractBuilder::version` (src/metadata/lib.rs:329-335). -/
def ContractBuilder.setVersion (b : ContractBuilder) (version : Version) :
    Except String ContractBuilder :=
  if b.version.isSome then .error "version has already been set"
  else .ok { b with version := some version }

/-- `ContractBuilder::authors` (src/metadata/lib.rs:338-358): panics if
already set, then collects the iterator to a vector and panics if it is
empty. -/
def ContractBuilder.setAuthors (b : ContractBuilder) (authors : List String) :
    Except String ContractBuilder :=
  if b.authors.isSome then .error "authors has already been set"
  else if authors.length = 0 then .error "must have at least one author"
  else .ok { b with authors := some authors }

/-- `ContractBuilder::description` (src/metadata/lib.rs:361-370). -/
def ContractBuilder.setDescription (b : ContractBuilder) (description : String) :
    Except String ContractBuilder :=
  if b.description.isSome then .error "description has already been set"
  else .ok { b with description := some description }

/-- `ContractBuilder::documentation` (src/metadata/lib.rs:373-379). -/
def ContractBuilder.setDocumentation (b : ContractBuilder) (documentation : Url) :
    Except String ContractBuilder :=
  if b.documentation.isSome then .error "documentation is already set"
  else .ok { b with documentation := some documentation }

/-- `ContractBuilder::repository` (src/metadata/lib.rs:382-388). -/
def ContractBuilder.setRepository (b : ContractBuilder) (repository : Url) :
    Except String ContractBuilder :=
  if b.repository.isSome then .error "repository is already set"
  else .ok { b with repository := some repository }

/-- `ContractBuilder::homepage` (src/metadata/lib.rs:391-397). -/
def ContractBuilder.setHomepage (b : ContractBuilder) (homepage : Url) :
    Except String ContractBuilder :=
  if b.homepage.isSome then .error "homepage is already set"
  else .ok { b with homepage := some homepage }

/-- `ContractBuilder::license` (src/metadata/lib.rs:400-409). -/
def ContractBuilder.setLicense (b : ContractBuilder) (license : String) :
    Except String ContractBuilder :=
  if b.license.isSome then .error "license has already been set"
  else .ok { b with license := some license }

/-- The list of required-field names `build` pushes for the error message,
in code order: name, version, authors (src/metadata/lib.rs:431-439). -/
def missingRequired (b : ContractBuilder) : List String :=
  (if b.name.isNone then ["name"] else [])
    ++ (if b.version.isNone then ["version"] else [])
    ++ (if b.authors.isNone then ["authors"] else [])

/-- `ContractBuilder::build` (src/metadata/lib.rs:414-445): succeeds when
name, version and authors are all set, copying every accumulated field;
otherwise errors with the joined missing-field list. -/
def ContractBuilder.build (b : ContractBuilder) : Except String Contract :=
  match b.name, b.version, b.authors with
  | some name, some version, some authors =>
    .ok { name := name, version := version, authors := authors,
          description := b.description, documentation := b.documentation,
          repository := b.repository, homepage := b.homepage,
          license := b.license }
  | _, _, _ =>
    .error ("Missing required non-default fields: "
      ++ String.intercalate ", " (missingRequired b))

/-- Builder states reachable through the public API: `authors` is only ever
set by `setAuthors`, which rejects the empty list, so a set `authors`
field is never empty. -/
def BuilderWF (b : ContractBuilder) : Prop :=
  ∀ l, b.authors = some l → l ≠ []

/-! ### Concrete example values (from the module's own doc example and tests) -/

def exVersion : Version := { display := "2.1.0" }

def zeroCodeHash : CodeHash := { hash := List.replicate 32 0, hash_len := by decide }

def exSourceNoWasm : Source :=
  Source.new none zeroCodeHash
    { language := Language.Ink, version := exVersion }
    { compiler := Compiler.RustC, version := { display := "1.46.0-nightly" } }

def exContract : Contract :=
  { name := "incrementer", version := exVersion,
    authors := ["Parity Technologies <admin@parity.io>"],
    description := none, documentation := none, repository := none,
    homepage := none, license := none }

def exDocNoWasm : ContractMetadata :=
  ContractMetadata.new exSourceNoWasm exContract none []

/-! ### Hex-encoding lemmas -/

lemma hexChar_mem (n : Nat) (h : n < 16) : hexChar n ∈ lowerHexChars := by
  interval_cases n <;> decide

lemma flatten_hex_length (bytes : List Nat) :
    ((bytes.map byteToHexChars).flatten).length = 2 * bytes.length := by
  induction bytes with
  | nil => simp
  | cons b bs ih =>
    simp only [List.map_cons, List.flatten_cons, List.length_append, ih,
      byteToHexChars, List.length_cons, List.length_nil, List.length_cons]
    omega

lemma flatten_hex_mem (bytes : List Nat) (hb : ∀ b ∈ bytes, b < 256) :
    ∀ c ∈ (bytes.map byteToHexChars).flatten, c ∈ lowerHexChars := by
  induction bytes with
  | nil => simp
  | cons b bs ih =>
    intro c hc
    have hblt : b < 256 := hb b (by simp)
    simp only [List.map_cons, List.flatten_cons] at hc
    rcases List.mem_append.mp hc with h1 | h1
    · simp only [byteToHexChars, List.mem_cons, List.not_mem_nil, or_false] at h1
      rcases h1 with rfl | rfl
      · exact hexChar_mem (b / 16) (by omega)
      · exact hexChar_mem (b % 16) (by omega)
    · exact ih (fun x hx => hb x (by simp [hx])) c h1

/-- Claim C1: for every non-empty byte sequence the canonical serialization
(`serialize_as_byte_str`, shared by `CodeHash` and `SourceWasm`) is `0x`
followed by exactly two lowercase hex characters per byte; for the empty
byte sequence it is the empty string with no `0x` prefix. -/
theorem serialize_as_byte_str_canonical (bytes : List Nat)
    (hb : ∀ b ∈ bytes, b < 256) :
    (bytes = [] → serialize_as_byte_str bytes = Json.str "") ∧
    (bytes ≠ [] → ∃ s : String,
      serialize_as_byte_str bytes = Json.str ("0x" ++ s) ∧
      s.length = 2 * bytes.length ∧
      ∀ c ∈ s.data, c ∈ lowerHexChars) := by
  constructor
  · intro h
    subst h
    rfl
  · intro h
    refine ⟨String.mk ((bytes.map byteToHexChars).flatten), ?_, ?_, ?_⟩
    · simp [serialize_as_byte_str, h]
    · simpa [String.length] using flatten_hex_length bytes
    · simpa using flatten_hex_mem bytes hb

/-- Witness for C1 at the byte sequence `[0, 1, 255]`. -/
theorem serialize_as_byte_str_canonical_witness :
    (([0, 1, 255] : List Nat) = [] →
      serialize_as_byte_str [0, 1, 255] = Json.str "") ∧
    (([0, 1, 255] : List Nat) ≠ [] → ∃ s : String,
      serialize_as_byte_str [0, 1, 255] = Json.str ("0x" ++ s) ∧
      s.length = 2 * ([0, 1, 255] : List Nat).length ∧
      ∀ c ∈ s.data, c ∈ lowerHexChars) :=
  serialize_as_byte_str_canonical [0, 1, 255] (by decide)

/-- Claim C6: `remove_source_wasm_attribute` clears the wasm payload and is
idempotent; on a Document already lacking wasm it is a no-op. -/
theorem remove_source_wasm_idempotent (m : ContractMetadata) :
    m.remove_source_wasm_attribute.remove_source_wasm_attribute
      = m.remove_source_wasm_attribute ∧
    (m.source.wasm = none → m.remove_source_wasm_attribute = m) ∧
    m.remove_source_wasm_attribute.source.wasm = none := by
  refine ⟨rfl, ?_, rfl⟩
  intro h
  obtain ⟨mv, s, c, u, abi⟩ := m
  obtain ⟨hh, ll, cc, ww⟩ := s
  simp_all [ContractMetadata.remove_source_wasm_attribute]

/-- Witness for C6: removing wasm from a Document already lacking it is a
no-op. -/
theorem remove_source_wasm_idempotent_witness :
    exDocNoWasm.remove_source_wasm_attribute = exDocNoWasm :=
  (remove_source_wasm_idempotent exDocNoWasm).2.1 rfl

/-- Claim C10: `remove_source_wasm_attribute` touches only the wasm field:
metadata version, contract, user, ABI, and the Source's hash, language and
compiler are unchanged. -/
theorem remove_source_wasm_frame (m : ContractMetadata) :
    m.remove_source_wasm_attribute.metadata_version = m.metadata_version ∧
    m.remove_source_wasm_attribute.contract = m.contract ∧
    m.remove_source_wasm_attribute.user = m.user ∧
    m.remove_source_wasm_attribute.abi = m.abi ∧
    m.remove_source_wasm_attribute.source.hash = m.source.hash ∧
    m.remove_source_wasm_attribute.source.language = m.source.language ∧
    m.remove_source_wasm_attribute.source.compiler = m.source.compiler :=
  ⟨rfl, rfl, rfl, rfl, rfl, rfl, rfl⟩

/-- Claim C3: `build` on a builder missing all of name, version and authors
errors with the single message naming name, version, authors in that fixed
order; a builder missing exactly one required field errors naming only that
field. -/
theorem build_missing_field_messages :
    (∀ b : ContractBuilder, b.name = none → b.version = none → b.authors = none →
      b.build = .error "Missing required non-default fields: name, version, authors") ∧
    (∀ b : ContractBuilder, b.name = none → b.version.isSome → b.authors.isSome →
      b.build = .error "Missing required non-default fields: name") ∧
    (∀ b : ContractBuilder, b.name.isSome → b.version = none → b.authors.isSome →
      b.build = .error "Missing required non-default fields: version") ∧
    (∀ b : ContractBuilder, b.name.isSome → b.version.isSome → b.authors = none →
      b.build = .error "Missing required non-default fields: authors") := by
  refine ⟨?_, ?_, ?_, ?_⟩ <;> intro b h1 h2 h3 <;>
    obtain ⟨nb, vb, ab, db, docb, rb, hpb, lb⟩ := b <;>
    simp only [Option.isSome_iff_exists] at * <;>
    try obtain ⟨x1, rfl⟩ := h1
  all_goals try obtain ⟨x2, rfl⟩ := h2
  all_goals try obtain ⟨x3, rfl⟩ := h3
  all_goals rfl

/-- Witness for C3: a builder with only the name missing. -/
theorem build_missing_field_messages_witness :
    ContractBuilder.build
        { version := some exVersion,
          authors := some ["Parity Technologies <admin@parity.io>"] }
      = .error "Missing required non-default fields: name" :=
  build_missing_field_messages.2.1
    { version := some exVersion,
      authors := some ["Parity Technologies <admin@parity.io>"] }
    rfl rfl rfl

/-- Claim C5: `build` succeeds exactly when name, version, and a non-empty
authors list are present in the (API-reachable, hence `BuilderWF`) builder
state, and on success the Contract carries exactly the accumulated values. -/
theorem build_succeeds_iff_required_present (b : ContractBuilder)
    (hwf : BuilderWF b) :
    ((∃ c, b.build = .ok c) ↔
      b.name.isSome ∧ b.version.isSome ∧ ∃ l, b.authors = some l ∧ l ≠ []) ∧
    (∀ n v a, b.name = some n → b.version = some v → b.authors = some a →
      b.build = .ok { name := n, version := v, authors := a,
                      description := b.description,
                      documentation := b.documentation,
                      repository := b.repository, homepage := b.homepage,
                      license := b.license }) := by
  obtain ⟨nb, vb, ab, db, docb, rb, hpb, lb⟩ := b
  constructor
  · constructor
    · rintro ⟨c, hc⟩
      cases nb with
      | none => simp [ContractBuilder.build] at hc
      | some n =>
        cases vb with
        | none => simp [ContractBuilder.build] at hc
        | some v =>
          cases ab with
          | none => simp [ContractBuilder.build] at hc
          | some a => exact ⟨rfl, rfl, a, rfl, hwf a rfl⟩
    · rintro ⟨h1, h2, l, h3, h4⟩
      cases h3
      cases nb with
      | none => simp at h1
      | some n =>
        cases vb with
        | none => simp at h2
        | some v => exact ⟨_, rfl⟩
  · intro n v a h1 h2 h3
    cases h1
    cases h2
    cases h3
    rfl

/-- Witness for C5 at a fully-supplied builder. -/
theorem build_succeeds_iff_required_present_witness :
    ContractBuilder.build
        { name := some "incrementer", version := some exVersion,
          authors := some ["Parity Technologies <admin@parity.io>"] }
      = .ok { name := "incrementer", version := exVersion,
              authors := ["Parity Technologies <admin@parity.io>"],
              description := none, documentation := none, repository := none,
              homepage := none, license := none } :=
  (build_succeeds_iff_required_present
      { name := some "incrementer", version := some exVersion,
        authors := some ["Parity Technologies <admin@parity.io>"] }
      (fun l hl => by cases hl; simp)).2
    "incrementer" exVersion ["Parity Technologies <admin@parity.io>"] rfl rfl rfl

/-- Claim C7: every setter aborts (modelled as `Except.error` carrying the
panic message) when its field is already set, so a stored value is never
silently overwritten; `setAuthors` additionally aborts on an empty list. -/
theorem setter_rejects_duplicate_and_empty_authors (b : ContractBuilder) :
    (∀ s, b.name.isSome → b.setName s = .error "name has already been set") ∧
    (∀ v, b.version.isSome → b.setVersion v = .error "version has already been set") ∧
    (∀ l, b.authors.isSome → b.setAuthors l = .error "authors has already been set") ∧
    (∀ s, b.description.isSome → b.setDescription s = .error "description has already been set") ∧
    (∀ u, b.documentation.isSome → b.setDocumentation u = .error "documentation is already set") ∧
    (∀ u, b.repository.isSome → b.setRepository u = .error "repository is already set") ∧
    (∀ u, b.homepage.isSome → b.setHomepage u = .error "homepage is already set") ∧
    (∀ s, b.license.isSome → b.setLicense s = .error "license has already been set") ∧
    (b.authors = none → b.setAuthors [] = .error "must have at least one author") := by
  refine ⟨?_, ?_, ?_, ?_, ?_, ?_, ?_, ?_, ?_⟩
  · intro s hs
    simp [ContractBuilder.setName, hs]
  · intro v hv
    simp [ContractBuilder.setVersion, hv]
  · intro l hl
    simp [ContractBuilder.setAuthors, hl]
  · intro s hs
    simp [ContractBuilder.setDescription, hs]
  · intro u hu
    simp [ContractBuilder.setDocumentation, hu]
  · intro u hu
    simp [ContractBuilder.setRepository, hu]
  · intro u hu
    simp [ContractBuilder.setHomepage, hu]
  · intro s hs
    simp [ContractBuilder.setLicense, hs]
  · intro h
    simp [ContractBuilder.setAuthors, h]

/-- A builder with every field already set, for the C7 witness. -/
def fullBuilder : ContractBuilder :=
  { name := some "incrementer", version := some exVersion,
    authors := some ["Parity Technologies <admin@parity.io>"],
    description := some "increment a value",
    documentation := some { display := "http://docs.rs/" },
    repository := some { display := "http://github.com/paritytech/ink/" },
    homepage := some { display := "http://example.com/" },
    license := some "Apache-2.0" }

/-- Witness for C7: setting `name` twice aborts. -/
theorem setter_rejects_duplicate_witness :
    fullBuilder.setName "other" = .error "name has already been set" :=
  (setter_rejects_duplicate_and_empty_authors fullBuilder).1 "other" rfl

/-- Claim C2: serialization emits the top-level keys in the order
`metadataVersion`, `source`, `contract`, `user` (only when a user value is
present), then the flattened ABI keys; and within `contract` every unset
optional field is omitted entirely, never emitted as `null`. -/
theorem document_key_order_and_no_null (m : ContractMetadata) :
    (m.serializeJson.keys
      = ["metadataVersion", "source", "contract"]
        ++ (match m.user with | some _ => ["user"] | none => [])
        ++ m.abi.map Prod.fst) ∧
    (m.contract.serializeJson.keys
      = ["name", "version", "authors"]
        ++ (match m.contract.description with | some _ => ["description"] | none => [])
        ++ (match m.contract.documentation with | some _ => ["documentation"] | none => [])
        ++ (match m.contract.repository with | some _ => ["repository"] | none => [])
        ++ (match m.contract.homepage with | some _ => ["homepage"] | none => [])
        ++ (match m.contract.license with | some _ => ["license"] | none => [])) ∧
    Json.null ∉ m.contract.serializeJson.entries.map Prod.snd := by
  obtain ⟨mv, s, c, u, abi⟩ := m
  obtain ⟨nm, ver, au, de, doc, repo, hpage, lic⟩ := c
  refine ⟨?_, ?_, ?_⟩
  · cases u <;>
      simp [ContractMetadata.serializeJson, Json.keys, User.serializeJson]
  · cases de <;> cases doc <;> cases repo <;> cases hpage <;> cases lic <;>
      simp [Contract.serializeJson, Json.keys, optField]
  · cases de <;> cases doc <;> cases repo <;> cases hpage <;> cases lic <;>
      simp [Contract.serializeJson, Json.entries, optField]

/-- Claim C4 counterexample: in a Document with a user value, the user's
keys are not merged into the top level; instead a `user` key appears whose
object value carries them (exactly as the module's own test expects). -/
theorem user_flattening_counterexample :
    "some-user-provided-field" ∉
      (ContractMetadata.new exSourceNoWasm exContract
          (some (User.new [("some-user-provided-field", Json.str "and-its-value")]))
          []).serializeJson.keys ∧
    (ContractMetadata.new exSourceNoWasm exContract
        (some (User.new [("some-user-provided-field", Json.str "and-its-value")]))
        []).serializeJson.keys
      = ["metadataVersion", "source", "contract", "user"] ∧
    (ContractMetadata.new exSourceNoWasm exContract
        (some (User.new [("some-user-provided-field", Json.str "and-its-value")]))
        []).serializeJson.lookupKey "user"
      = some (Json.obj [("some-user-provided-field", Json.str "and-its-value")]) :=
  ⟨by decide, rfl, rfl⟩

/-- Claim C4 (amended): when a user value is present, the serialized
Document carries a top-level `user` key — a sibling of `metadataVersion`,
`source`, `contract` — whose object value holds the User mapping's keys
directly; the User keys themselves are nested under `user`, not merged
into the top level (only the ABI mapping is flattened there). -/
theorem user_keys_nested_under_user (m : ContractMetadata) (u : User)
    (h : m.user = some u) :
    m.serializeJson.keys
      = ["metadataVersion", "source", "contract", "user"] ++ m.abi.map Prod.fst ∧
    m.serializeJson.lookupKey "user" = some (Json.obj u.json) := by
  obtain ⟨mv, s, c, u2, abi⟩ := m
  cases h
  constructor
  · simp [ContractMetadata.serializeJson, Json.keys]
  · simp [ContractMetadata.serializeJson, Json.lookupKey, Json.entries,
      lookupEntry, User.serializeJson]

/-- Witness for the amended C4 at a concrete Document with user data. -/
theorem user_keys_nested_under_user_witness :
    (ContractMetadata.new exSourceNoWasm exContract
        (some (User.new [("some-user-provided-field", Json.str "and-its-value")]))
        []).serializeJson.keys
      = ["metadataVersion", "source", "contract", "user"]
        ++ (ContractMetadata.new exSourceNoWasm exContract
              (some (User.new [("some-user-provided-field", Json.str "and-its-value")]))
              []).abi.map Prod.fst ∧
    (ContractMetadata.new exSourceNoWasm exContract
        (some (User.new [("some-user-provided-field", Json.str "and-its-value")]))
        []).serializeJson.lookupKey "user"
      = some (Json.obj (User.new [("some-user-provided-field", Json.str "and-its-value")]).json) :=
  user_keys_nested_under_user _
    (User.new [("some-user-provided-field", Json.str "and-its-value")]) rfl

/-- Claim C8: `SourceLanguage` and `SourceCompiler` serialize as the single
string `"<label> <version>"` — not a nested object — with the fixed label
lookup Ink → "ink!", Solidity → "Solidity", AssemblyScript →
"AssemblyScript", RustC → "rustc", Solang → "solang". -/
theorem language_compiler_serialize_as_labelled_string
    (sl : SourceLanguage) (sc : SourceCompiler) :
    sl.serialize = Json.str (sl.language.display ++ " " ++ sl.version.display) ∧
    sc.serialize = Json.str (sc.compiler.display ++ " " ++ sc.version.display) ∧
    Language.Ink.display = "ink!" ∧
    Language.Solidity.display = "Solidity" ∧
    Language.AssemblyScript.display = "AssemblyScript" ∧
    Compiler.RustC.display = "rustc" ∧
    Compiler.Solang.display = "solang" :=
  ⟨rfl, rfl, rfl, rfl, rfl, rfl, rfl⟩

set_option maxRecDepth 4096 in
/-- Claim C9 counterexample: `CodeHash` has no `Display` impl in the
source; its only human-readable rendering is the derived `Debug` form,
whose first two characters are not `0x`. -/
theorem codehash_display_counterexample :
    (CodeHash.debugFmt zeroCodeHash).data.take 2 ≠ ['0', 'x'] := by
  decide

/-- Claim C9 (amended): `SourceWasm` supports a human-readable display
form, distinct from serialization, that is always prefixed with `0x` —
including for the empty byte sequence, where display (`"0x"`) and
serialization (empty string) disagree.  `CodeHash` has no dedicated
display form; its byte sequence is fixed at 32 bytes, so its
serialization is itself always `0x`-prefixed and the empty case cannot
arise. -/
theorem wasm_display_serialization_divergence (w : SourceWasm) (ch : CodeHash) :
    (∃ s, w.display = "0x" ++ s) ∧
    (w.wasm = [] → w.display = "0x" ∧ w.serialize = Json.str "") ∧
    ch.hash ≠ [] ∧
    (∃ s, ch.serialize = Json.str ("0x" ++ s)) := by
  obtain ⟨ww⟩ := w
  have hne : ch.hash ≠ [] := by
    intro h
    have hlen := ch.hash_len
    rw [h] at hlen
    simp at hlen
  refine ⟨⟨String.mk ((ww.map byteToHexChars).flatten), rfl⟩, ?_, hne, ?_⟩
  · intro h
    subst h
    exact ⟨rfl, rfl⟩
  · refine ⟨String.mk ((ch.hash.map byteToHexChars).flatten), ?_⟩
    simp [CodeHash.serialize, serialize_as_byte_str, hne]

/-- Witness for the amended C9 at the empty wasm payload. -/
theorem wasm_display_serialization_divergence_witness :
    SourceWasm.display { wasm := [] } = "0x" ∧
    SourceWasm.serialize { wasm := [] } = Json.str "" :=
  (wasm_display_serialization_divergence { wasm := [] } zeroCodeHash).2.1 rfl

end ContractMeta
